import Mathlib

/-!
Verification of the user service of `catwithtudou/snake`
(`internal/service/user`, read here from `src/cmd/job/main.go`).

The service orchestrates three repository ports (`userRepo`,
`userFollowRepo`, `userStatRepo`) and two opaque capabilities
(`token.Sign`, `gorm` queries).  Those collaborators are not part of the
source tree, so they are modelled from the spec (each such definition
carries a doc comment starting with `Modelled from the spec:`); every
service-level function is translated directly from the Go source.
-/

namespace SnakeUser

/-- FollowStatusNormal 关注状态-正常 (source constant, value 1). -/
def FollowStatusNormal : Nat := 1

/-- FollowStatusDelete 关注状态-删除 (source constant, value 0). -/
def FollowStatusDelete : Nat := 0

/-- Committed persistent state of the follow domain: the follow edges
(`followStatus userID followedUID`), the reverse fan projections
(`fanStatus ownerID followerID`), and the two denormalized counters. -/
structure FollowState where
  followStatus : Nat → Nat → Option Nat
  fanStatus : Nat → Nat → Option Nat
  followCount : Nat → Int
  followerCount : Nat → Int

/-- Modelled from the spec: `userFollowRepo.CreateUserFollow` (repository
layer, not under src/) — "step (1) creates or reactivates the edge as
Normal". -/
def CreateUserFollow (s : FollowState) (userID followedUID : Nat) : FollowState :=
  { s with followStatus := fun a b =>
      if a = userID ∧ b = followedUID then some FollowStatusNormal
      else s.followStatus a b }

/-- Modelled from the spec: `userFollowRepo.CreateUserFans` (repository
layer, not under src/) — "step (2) creates or reactivates the fan
projection as Normal". -/
def CreateUserFans (s : FollowState) (userID followedUID : Nat) : FollowState :=
  { s with fanStatus := fun a b =>
      if a = userID ∧ b = followedUID then some FollowStatusNormal
      else s.fanStatus a b }

/-- Modelled from the spec: `userFollowRepo.UpdateUserFollowStatus`
(repository layer, not under src/) — an UPDATE of the edge row's status;
an absent row stays absent. -/
def UpdateUserFollowStatus (s : FollowState) (userID followedUID status : Nat) :
    FollowState :=
  { s with followStatus := fun a b =>
      if a = userID ∧ b = followedUID then (s.followStatus a b).map fun _ => status
      else s.followStatus a b }

/-- Modelled from the spec: `userFollowRepo.UpdateUserFansStatus`
(repository layer, not under src/) — an UPDATE of the fan row's status;
an absent row stays absent. -/
def UpdateUserFansStatus (s : FollowState) (userID followedUID status : Nat) :
    FollowState :=
  { s with fanStatus := fun a b =>
      if a = userID ∧ b = followedUID then (s.fanStatus a b).map fun _ => status
      else s.fanStatus a b }

/-- Modelled from the spec: `userStatRepo.IncrFollowCount` (repository
layer, not under src/) — `IncrFollowingCount(id, delta)` adjusts the
following counter by the signed step. -/
def IncrFollowCount (s : FollowState) (userID : Nat) (step : Int) : FollowState :=
  { s with followCount := fun x =>
      if x = userID then s.followCount x + step else s.followCount x }

/-- Modelled from the spec: `userStatRepo.IncrFollowerCount` (repository
layer, not under src/) — `IncrFollowerCount(id, delta)` adjusts the
follower counter by the signed step. -/
def IncrFollowerCount (s : FollowState) (userID : Nat) (step : Int) : FollowState :=
  { s with followerCount := fun x =>
      if x = userID then s.followerCount x + step else s.followerCount x }

/-- Fault injection for the four repository steps and the final commit of
one follow/unfollow transaction. -/
structure FollowFaults where
  failStep1 : Bool
  failStep2 : Bool
  failStep3 : Bool
  failStep4 : Bool
  failCommit : Bool
deriving DecidableEq, Repr

/-- How a transaction-scoped call ended: `committed`, `rolledBack`
(`tx.Rollback()` was called), or `leaked` (the function returned with the
transaction still open — neither `Commit` nor `Rollback` was called; the
deferred recover only fires on a panic). -/
inductive TxEnd where
  | committed
  | rolledBack
  | leaked
deriving DecidableEq, Repr

/-- Result of one transaction-scoped service call: the returned error (if
any), how the transaction ended, and the committed database state after
the call. -/
structure CallResult where
  err : Option String
  txEnd : TxEnd
  state : FollowState

/-- `AddUserFollow` 添加关注: the four steps of the source, in order, on
one transaction.  Each failing step returns the wrapped error of the
source.  Steps 1–3 call `tx.Rollback()`; the step-4 error path of the
source returns WITHOUT calling `tx.Rollback()` (modelled as `.leaked`).
The committed state changes only at `tx.Commit()`. -/
def AddUserFollow (s : FollowState) (userID followedUID : Nat)
    (f : FollowFaults) : CallResult :=
  if f.failStep1 then
    { err := some "insert into user follow err", txEnd := TxEnd.rolledBack, state := s }
  else
    let t1 := CreateUserFollow s userID followedUID
    if f.failStep2 then
      { err := some "insert into user fans err", txEnd := TxEnd.rolledBack, state := s }
    else
      let t2 := CreateUserFans t1 followedUID userID
      if f.failStep3 then
        { err := some "update user follow count err", txEnd := TxEnd.rolledBack, state := s }
      else
        let t3 := IncrFollowCount t2 userID 1
        if f.failStep4 then
          { err := some "update user fans count err", txEnd := TxEnd.leaked, state := s }
        else
          let t4 := IncrFollowerCount t3 followedUID 1
          if f.failCommit then
            { err := some "tx commit err", txEnd := TxEnd.rolledBack, state := s }
          else
            { err := none, txEnd := TxEnd.committed, state := t4 }

/-- `CancelUserFollow` 取消用户关注: the four steps of the source, in
order, on one transaction; every failing step (and a failing commit)
calls `tx.Rollback()`. -/
def CancelUserFollow (s : FollowState) (userID followedUID : Nat)
    (f : FollowFaults) : CallResult :=
  if f.failStep1 then
    { err := some "update user follow err", txEnd := TxEnd.rolledBack, state := s }
  else
    let t1 := UpdateUserFollowStatus s userID followedUID FollowStatusDelete
    if f.failStep2 then
      { err := some "update user follow err", txEnd := TxEnd.rolledBack, state := s }
    else
      let t2 := UpdateUserFansStatus t1 followedUID userID FollowStatusDelete
      if f.failStep3 then
        { err := some "update user follow count err", txEnd := TxEnd.rolledBack, state := s }
      else
        let t3 := IncrFollowCount t2 userID (-1)
        if f.failStep4 then
          { err := some "update user fans count err", txEnd := TxEnd.rolledBack, state := s }
        else
          let t4 := IncrFollowerCount t3 followedUID (-1)
          if f.failCommit then
            { err := some "tx commit err", txEnd := TxEnd.rolledBack, state := s }
          else
            { err := none, txEnd := TxEnd.committed, state := t4 }

/-- The fault assignment where every repository step and the commit
succeed. -/
def noFollowFaults : FollowFaults :=
  { failStep1 := false, failStep2 := false, failStep3 := false,
    failStep4 := false, failCommit := false }

/-- The fault assignment where exactly step 4 (`IncrFollowerCount`)
fails. -/
def step4Fault : FollowFaults :=
  { failStep1 := false, failStep2 := false, failStep3 := false,
    failStep4 := true, failCommit := false }

/-- Empty initial follow state: no edges, no fans, all counters zero. -/
def initFollowState : FollowState :=
  { followStatus := fun _ _ => none, fanStatus := fun _ _ => none,
    followCount := fun _ => 0, followerCount := fun _ => 0 }

/-- A successful `AddUserFollow` took the all-steps path: its committed
state is the four updates applied in order. -/
theorem addUserFollow_ok_state (s : FollowState) (a b : Nat) (f : FollowFaults)
    (h : (AddUserFollow s a b f).err = none) :
    (AddUserFollow s a b f).state =
      IncrFollowerCount (IncrFollowCount (CreateUserFans (CreateUserFollow s a b) b a) a 1) b 1 := by
  obtain ⟨f1, f2, f3, f4, f5⟩ := f
  cases f1 <;> cases f2 <;> cases f3 <;> cases f4 <;> cases f5 <;>
    simp_all [AddUserFollow]

/-- A successful `CancelUserFollow` took the all-steps path: its committed
state is the four updates applied in order. -/
theorem cancelUserFollow_ok_state (s : FollowState) (a b : Nat) (f : FollowFaults)
    (h : (CancelUserFollow s a b f).err = none) :
    (CancelUserFollow s a b f).state =
      IncrFollowerCount (IncrFollowCount
        (UpdateUserFansStatus (UpdateUserFollowStatus s a b FollowStatusDelete) b a FollowStatusDelete)
        a (-1)) b (-1) := by
  obtain ⟨f1, f2, f3, f4, f5⟩ := f
  cases f1 <;> cases f2 <;> cases f3 <;> cases f4 <;> cases f5 <;>
    simp_all [CancelUserFollow]

/-- Claim C1: the claim states that any failing step of `AddUserFollow` or
`CancelUserFollow` reverts all prior steps (rollback-on-first-error).  The
source violates it on exactly one path: when step 4 of `AddUserFollow`
(`IncrFollowerCount`) fails, the function returns the wrapped error
without calling `tx.Rollback()`, leaving the transaction open (`.leaked`);
nothing is committed, but the prior steps are not reverted by the call. -/
theorem addUserFollow_step4_fault_no_rollback :
    (AddUserFollow initFollowState 1 2 step4Fault).err = some "update user fans count err" ∧
    (AddUserFollow initFollowState 1 2 step4Fault).txEnd = TxEnd.leaked ∧
    (AddUserFollow initFollowState 1 2 step4Fault).txEnd ≠ TxEnd.rolledBack := by
  refine ⟨rfl, rfl, ?_⟩
  intro h
  exact TxEnd.noConfusion h

/-- Claim C6: a successful Follow followed by a successful Unfollow on the
same ordered pair restores the follower's `followingCount` and the
followee's `followerCount` to their pre-Follow values. -/
theorem follow_unfollow_net_zero (s : FollowState) (a b : Nat) (f g : FollowFaults)
    (h1 : (AddUserFollow s a b f).err = none)
    (h2 : (CancelUserFollow (AddUserFollow s a b f).state a b g).err = none) :
    (CancelUserFollow (AddUserFollow s a b f).state a b g).state.followCount a =
      s.followCount a ∧
    (CancelUserFollow (AddUserFollow s a b f).state a b g).state.followerCount b =
      s.followerCount b := by
  rw [cancelUserFollow_ok_state _ _ _ _ h2, addUserFollow_ok_state _ _ _ _ h1]
  constructor <;>
    simp [IncrFollowerCount, IncrFollowCount, UpdateUserFansStatus,
      UpdateUserFollowStatus, CreateUserFans, CreateUserFollow]

/-- Witness for C6 at a concrete state and pair. -/
theorem follow_unfollow_net_zero_witness :
    (CancelUserFollow (AddUserFollow initFollowState 1 2 noFollowFaults).state 1 2
        noFollowFaults).state.followCount 1 = initFollowState.followCount 1 ∧
    (CancelUserFollow (AddUserFollow initFollowState 1 2 noFollowFaults).state 1 2
        noFollowFaults).state.followerCount 2 = initFollowState.followerCount 2 :=
  follow_unfollow_net_zero initFollowState 1 2 noFollowFaults noFollowFaults rfl rfl

/-- One successful relationship transition, as the claim's "sequence of
successful Follow and Unfollow operations". -/
inductive FollowOp where
  | follow (userID followedUID : Nat)
  | unfollow (userID followedUID : Nat)

/-- Apply one successful (fault-free) transition. -/
def applyOp (s : FollowState) : FollowOp → FollowState
  | FollowOp.follow a b => (AddUserFollow s a b noFollowFaults).state
  | FollowOp.unfollow a b => (CancelUserFollow s a b noFollowFaults).state

/-- Apply a sequence of successful transitions, left to right. -/
def applyOps (s : FollowState) (ops : List FollowOp) : FollowState :=
  ops.foldl applyOp s

/-- The C8 invariant for the ordered pair (a, b): the follow edge a→b and
its reverse fan projection carry the same status (both absent, or both
present with equal status value). -/
def edgeFanAgree (s : FollowState) (a b : Nat) : Prop :=
  s.followStatus a b = s.fanStatus b a

/-- One successful transition preserves edge/fan agreement on every
ordered pair. -/
theorem applyOp_preserves_agree (s : FollowState) (o : FollowOp) (a b : Nat)
    (h : edgeFanAgree s a b) : edgeFanAgree (applyOp s o) a b := by
  cases o with
  | follow x y =>
    show edgeFanAgree (AddUserFollow s x y noFollowFaults).state a b
    rw [addUserFollow_ok_state s x y noFollowFaults rfl]
    unfold edgeFanAgree at h ⊢
    simp only [IncrFollowerCount, IncrFollowCount, CreateUserFans, CreateUserFollow]
    by_cases hc : a = x ∧ b = y
    · obtain ⟨hx, hy⟩ := hc
      subst hx; subst hy
      simp
    · have hc2 : ¬(b = y ∧ a = x) := fun hp => hc ⟨hp.2, hp.1⟩
      simp [hc, hc2, h]
  | unfollow x y =>
    show edgeFanAgree (CancelUserFollow s x y noFollowFaults).state a b
    rw [cancelUserFollow_ok_state s x y noFollowFaults rfl]
    unfold edgeFanAgree at h ⊢
    simp only [IncrFollowerCount, IncrFollowCount, UpdateUserFansStatus,
      UpdateUserFollowStatus]
    by_cases hc : a = x ∧ b = y
    · obtain ⟨hx, hy⟩ := hc
      subst hx; subst hy
      simp [h]
    · have hc2 : ¬(b = y ∧ a = x) := fun hp => hc ⟨hp.2, hp.1⟩
      simp [hc, hc2, h]

/-- Claim C8: starting from a state where the a→b follow edge and its
reverse fan projection agree, every sequence of successful Follow and
Unfollow operations (on any pairs) keeps them in agreement. -/
theorem edge_fan_agree_invariant (a b : Nat) (s : FollowState) (ops : List FollowOp)
    (h : edgeFanAgree s a b) : edgeFanAgree (applyOps s ops) a b := by
  induction ops generalizing s with
  | nil => exact h
  | cons o rest ih => exact ih (applyOp s o) (applyOp_preserves_agree s o a b h)

/-- Witness for C8: a concrete follow / unfollow / follow run on the pair
(1, 2) starting from the empty state. -/
theorem edge_fan_agree_invariant_witness :
    edgeFanAgree
      (applyOps initFollowState
        [FollowOp.follow 1 2, FollowOp.unfollow 1 2, FollowOp.follow 1 2]) 1 2 :=
  edge_fan_agree_invariant 1 2 initFollowState
    [FollowOp.follow 1 2, FollowOp.unfollow 1 2, FollowOp.follow 1 2] rfl

/-- User record as read from the repository (the fields the service
touches). -/
structure UserBaseModel where
  id : Nat
  username : String
  phone : Int
deriving DecidableEq, Repr

/-- Per-user stat record (denormalized counters). -/
structure UserStatModel where
  userID : Nat
  followCount : Int
  followerCount : Int
deriving DecidableEq, Repr

/-- Aggregated per-request view. Modelled from the spec: `model.UserInfo`
(not under src/) is "a read-only composite of UserRecord fields,
isFollowedByRequester, isFollowerOfRequester, UserStat". -/
structure UserInfo where
  id : Nat
  username : String
  isFollow : Nat
  isFans : Nat
  userStat : Option UserStatModel
deriving DecidableEq, Repr

/-- Input of the per-record transform, as built by `BatchGetUsers`. -/
structure TransferUserInput where
  curUser : UserBaseModel
  user : UserBaseModel
  userStat : Option UserStatModel
  isFollow : Nat
  isFans : Nat

/-- Modelled from the spec: `idl.TransferUser` (internal/idl, not under
src/) builds the aggregated view from the user record, the two
relationship flags and the (possibly absent) stat record. -/
def TransferUser (i : TransferUserInput) : UserInfo :=
  { id := i.user.id, username := i.user.username,
    isFollow := i.isFollow, isFans := i.isFans, userStat := i.userStat }

/-- The five repository results consumed by one `BatchGetUsers` call, plus
the scheduling choice of the final `select` when both of its cases are
ready (`pickFinished = true` means the `finished` case is chosen). -/
structure BatchEnv where
  usersRes : Except String (List UserBaseModel)
  curUserRes : Except String UserBaseModel
  followRes : Except String (List Nat)
  fansRes : Except String (List Nat)
  statRes : Except String (List (Nat × UserStatModel))
  pickFinished : Bool

/-- The error of a repository result, if any. -/
def errOf {α : Type} : Except String α → Option String
  | Except.error e => some e
  | Except.ok _ => none

/-- Key set of a relationship lookup; a failed lookup leaves the Go map
nil, in which every membership test is false. -/
def keysOf : Except String (List Nat) → List Nat
  | Except.ok l => l
  | Except.error _ => []

/-- Stat map of the stat lookup; nil (empty) when the lookup failed. -/
def statsOf : Except String (List (Nat × UserStatModel)) → List (Nat × UserStatModel)
  | Except.ok l => l
  | Except.error _ => []

/-- One worker body of `BatchGetUsers`: membership tests against the two
relationship key sets, stat attachment (absent stat becomes none), then
`TransferUser`. -/
def transferOne (curUser : UserBaseModel) (followKeys fansKeys : List Nat)
    (statList : List (Nat × UserStatModel)) (u : UserBaseModel) : UserInfo :=
  let isFollow : Nat := if u.id ∈ followKeys then 1 else 0
  let isFollowed : Nat := if u.id ∈ fansKeys then 1 else 0
  let stat : Option UserStatModel := (statList.find? fun p => p.fst == u.id).map Prod.snd
  TransferUser { curUser := curUser, user := u, userStat := stat,
                 isFollow := isFollow, isFans := isFollowed }

/-- The mutex-guarded `IDMap` after all workers ran: one entry per user
record, keyed by its id. -/
def buildIDMap (curUser : UserBaseModel) (followKeys fansKeys : List Nat)
    (statList : List (Nat × UserStatModel)) (users : List UserBaseModel) :
    Nat → Option UserInfo :=
  users.foldl
    (fun m u => fun k =>
      if k = u.id then some (transferOne curUser followKeys fansKeys statList u)
      else m k)
    (fun _ => none)

/-- The errors pushed into the single-slot `errChan` by the three
relationship/stat lookups, in program order. -/
def pushedErrs (env : BatchEnv) : List String :=
  [errOf env.followRes, errOf env.fansRes, errOf env.statRes].filterMap id

/-- The `IDMap` a `BatchGetUsers` call builds from its environment
(empty when one of the two early-returning lookups failed). -/
def batchIDMap (env : BatchEnv) : Nat → Option UserInfo :=
  match env.usersRes, env.curUserRes with
  | Except.ok users, Except.ok curUser =>
      buildIDMap curUser (keysOf env.followRes) (keysOf env.fansRes)
        (statsOf env.statRes) users
  | _, _ => fun _ => none

/-- Observable outcome of one `BatchGetUsers` call: a returned list, a
returned error, or no return at all (the caller blocks forever). -/
inductive BatchOutcome where
  | ok (infos : List (Option UserInfo))
  | err (e : String)
  | hang
deriving DecidableEq, Repr

/-- `BatchGetUsers` 批量获取用户信息, translated from the source:
the first two lookups return their wrapped error immediately; the three
remaining lookups push errors into the one-slot `errChan` WITHOUT
returning (a second push blocks the caller forever: `.hang`); the workers
fill `IDMap`; when `errChan` holds an error the final `select` races
against `finished` — it deterministically returns the first pushed error
only when the workers cannot finish (they block re-sending on the full
channel, which happens when the `err` variable still holds the stat
lookup's error and at least one worker runs); otherwise the scheduling
bit `pickFinished` decides, and the `finished` case returns the merged
list as a success despite the pushed error. -/
def BatchGetUsers (userID : Nat) (userIDs : List Nat) (env : BatchEnv) : BatchOutcome :=
  match env.usersRes with
  | Except.error e => BatchOutcome.err ("[user_service] batch get user err: " ++ e)
  | Except.ok users =>
    match env.curUserRes with
    | Except.error e => BatchOutcome.err ("[user_service] get one user err: " ++ e)
    | Except.ok curUser =>
      if 2 ≤ (pushedErrs env).length then BatchOutcome.hang
      else
        let idMap := buildIDMap curUser (keysOf env.followRes) (keysOf env.fansRes)
          (statsOf env.statRes) users
        let infos := userIDs.map idMap
        match (pushedErrs env).head? with
        | none => BatchOutcome.ok infos
        | some e =>
          if env.pickFinished ∧ (errOf env.statRes = none ∨ users = []) then
            BatchOutcome.ok infos
          else BatchOutcome.err e

/-- `GetUserInfoByID` 获取组装好的用户数据, translated from the source:
the single-id call of `BatchGetUsers` whose first element is returned. -/
inductive SingleOutcome where
  | ok (info : Option UserInfo)
  | err (e : String)
  | hang
deriving DecidableEq, Repr

/-- `GetUserInfoByID` body: `BatchGetUsers(id, [id])`, propagating the
error, else the element at index 0. -/
def GetUserInfoByID (id : Nat) (env : BatchEnv) : SingleOutcome :=
  match BatchGetUsers id [id] env with
  | BatchOutcome.ok infos => SingleOutcome.ok (infos.getD 0 none)
  | BatchOutcome.err e => SingleOutcome.err e
  | BatchOutcome.hang => SingleOutcome.hang

/-- Every successful `BatchGetUsers` call returns exactly the input id
sequence mapped through the call's `IDMap`. -/
theorem batchGetUsers_ok_eq (uid : Nat) (ids : List Nat) (env : BatchEnv)
    (infos : List (Option UserInfo))
    (h : BatchGetUsers uid ids env = BatchOutcome.ok infos) :
    infos = ids.map (batchIDMap env) := by
  unfold BatchGetUsers at h
  unfold batchIDMap
  cases hu : env.usersRes with
  | error e => rw [hu] at h; exact absurd h (by simp)
  | ok users =>
    rw [hu] at h
    cases hc : env.curUserRes with
    | error e => rw [hc] at h; exact absurd h (by simp)
    | ok curUser =>
      rw [hc] at h
      simp only at h
      split at h
      · exact absurd h (by simp)
      · split at h
        · simp only [BatchOutcome.ok.injEq] at h
          exact h.symm
        · split at h
          · simp only [BatchOutcome.ok.injEq] at h
            exact h.symm
          · exact absurd h (by simp)

/-- Claim C3: every successful `BatchGetUsers` call, including empty
inputs and inputs with duplicates, returns one entry per input position:
the output has the length of `userIDs` and the entry at every position i
is the aggregated record the call built for `userIDs[i]`. -/
theorem batchGetUsers_preserves_order (uid : Nat) (ids : List Nat) (env : BatchEnv)
    (infos : List (Option UserInfo))
    (h : BatchGetUsers uid ids env = BatchOutcome.ok infos) :
    infos.length = ids.length ∧
      ∀ i : Nat, infos[i]? = (ids[i]?).map (batchIDMap env) := by
  have he := batchGetUsers_ok_eq uid ids env infos h
  subst he
  refine ⟨List.length_map _ _, fun i => ?_⟩
  exact List.getElem?_map (batchIDMap env) ids i

/-- Witness for C3 at a concrete environment with duplicate ids. -/
theorem batchGetUsers_preserves_order_witness :
    ((([2, 3, 2] : List Nat).map (batchIDMap
        { usersRes := Except.ok [{ id := 2, username := "bob", phone := 0 },
                                 { id := 3, username := "eve", phone := 0 }],
          curUserRes := Except.ok { id := 1, username := "alice", phone := 0 },
          followRes := Except.ok [2], fansRes := Except.ok [3],
          statRes := Except.ok [], pickFinished := false })).length =
      ([2, 3, 2] : List Nat).length) ∧
    ∀ i : Nat,
      (([2, 3, 2] : List Nat).map (batchIDMap
        { usersRes := Except.ok [{ id := 2, username := "bob", phone := 0 },
                                 { id := 3, username := "eve", phone := 0 }],
          curUserRes := Except.ok { id := 1, username := "alice", phone := 0 },
          followRes := Except.ok [2], fansRes := Except.ok [3],
          statRes := Except.ok [], pickFinished := false }))[i]? =
      ((([2, 3, 2] : List Nat)[i]?).map (batchIDMap
        { usersRes := Except.ok [{ id := 2, username := "bob", phone := 0 },
                                 { id := 3, username := "eve", phone := 0 }],
          curUserRes := Except.ok { id := 1, username := "alice", phone := 0 },
          followRes := Except.ok [2], fansRes := Except.ok [3],
          statRes := Except.ok [], pickFinished := false })) :=
  batchGetUsers_preserves_order 1 [2, 3, 2] _ _ rfl

/-- Claim C2: the claim states that a failure of any of the five lookups
makes the whole call return that error with no result list.  The source
violates it: a failed `GetFollowByUIds` only pushes its error into
`errChan` and execution continues; when the workers all finish, the final
`select` has both cases ready and may take the `finished` case, returning
a full result list (built against a nil follow map) and no error. -/
theorem batchGetUsers_error_race_returns_list :
    ({ usersRes := Except.ok [{ id := 2, username := "bob", phone := 0 }],
       curUserRes := Except.ok { id := 1, username := "alice", phone := 0 },
       followRes := Except.error "follow lookup failed",
       fansRes := Except.ok [], statRes := Except.ok [],
       pickFinished := true } : BatchEnv).followRes =
        Except.error "follow lookup failed" ∧
    BatchGetUsers 1 [2]
      { usersRes := Except.ok [{ id := 2, username := "bob", phone := 0 }],
        curUserRes := Except.ok { id := 1, username := "alice", phone := 0 },
        followRes := Except.error "follow lookup failed",
        fansRes := Except.ok [], statRes := Except.ok [],
        pickFinished := true } =
      BatchOutcome.ok [some { id := 2, username := "bob", isFollow := 0,
                              isFans := 0, userStat := none }] :=
  ⟨rfl, rfl⟩

/-- The per-record transform sets each flag to 1 exactly when the record's
id is a member of the corresponding relationship key set. -/
theorem transferOne_flags (curUser : UserBaseModel) (followKeys fansKeys : List Nat)
    (statList : List (Nat × UserStatModel)) (u : UserBaseModel) :
    ((transferOne curUser followKeys fansKeys statList u).isFollow = 1 ↔
      (transferOne curUser followKeys fansKeys statList u).id ∈ followKeys) ∧
    ((transferOne curUser followKeys fansKeys statList u).isFans = 1 ↔
      (transferOne curUser followKeys fansKeys statList u).id ∈ fansKeys) := by
  unfold transferOne TransferUser
  constructor
  · by_cases hm : u.id ∈ followKeys <;> simp [hm]
  · by_cases hm : u.id ∈ fansKeys <;> simp [hm]

/-- Every entry the worker fold stores satisfies the membership
characterization of the two relationship flags, provided the initial
accumulator does. -/
theorem foldIDMap_flags (curUser : UserBaseModel) (followKeys fansKeys : List Nat)
    (statList : List (Nat × UserStatModel)) :
    ∀ (users : List UserBaseModel) (m : Nat → Option UserInfo),
      (∀ k v, m k = some v →
        (v.isFollow = 1 ↔ v.id ∈ followKeys) ∧ (v.isFans = 1 ↔ v.id ∈ fansKeys)) →
      ∀ k v,
        users.foldl
          (fun m u => fun k =>
            if k = u.id then some (transferOne curUser followKeys fansKeys statList u)
            else m k) m k = some v →
        (v.isFollow = 1 ↔ v.id ∈ followKeys) ∧ (v.isFans = 1 ↔ v.id ∈ fansKeys) := by
  intro users
  induction users with
  | nil => intro m hm k v h; exact hm k v h
  | cons u rest ih =>
    intro m hm k v h
    rw [List.foldl_cons] at h
    refine ih _ ?_ k v h
    intro k2 v2 h2
    simp only at h2
    by_cases hk : k2 = u.id
    · rw [if_pos hk] at h2
      have hv2 : transferOne curUser followKeys fansKeys statList u = v2 :=
        Option.some.inj h2
      rw [← hv2]
      exact transferOne_flags curUser followKeys fansKeys statList u
    · rw [if_neg hk] at h2
      exact hm k2 v2 h2

/-- Claim C5: in every successful `BatchGetUsers` call whose two
relationship lookups succeeded, every aggregated entry has `isFollow = 1`
exactly when its id is in the `GetFollowByUIds` result and `isFans = 1`
exactly when its id is in the `GetFansByUIds` result. -/
theorem batchGetUsers_flag_semantics (uid : Nat) (ids : List Nat) (env : BatchEnv)
    (infos : List (Option UserInfo)) (fl fs : List Nat)
    (hf : env.followRes = Except.ok fl) (hs : env.fansRes = Except.ok fs)
    (h : BatchGetUsers uid ids env = BatchOutcome.ok infos) :
    ∀ v : UserInfo, some v ∈ infos →
      (v.isFollow = 1 ↔ v.id ∈ fl) ∧ (v.isFans = 1 ↔ v.id ∈ fs) := by
  intro v hv
  have he := batchGetUsers_ok_eq uid ids env infos h
  subst he
  rcases List.mem_map.mp hv with ⟨tid, _, htid⟩
  unfold batchIDMap at htid
  cases hu : env.usersRes with
  | error e => rw [hu] at htid; simp at htid
  | ok users =>
    rw [hu] at htid
    cases hc : env.curUserRes with
    | error e => rw [hc] at htid; simp at htid
    | ok curUser =>
      rw [hc, hf, hs] at htid
      simp only [keysOf] at htid
      unfold buildIDMap at htid
      exact foldIDMap_flags curUser fl fs (statsOf env.statRes) users
        (fun _ => none) (fun k v h0 => by simp at h0) tid v htid

/-- Concrete environment for the C5 witness: requester 1 follows 2 and is
followed back by 3; targets are 2, 3 and 4. -/
def envFlags : BatchEnv :=
  { usersRes := Except.ok [{ id := 2, username := "bob", phone := 0 },
                           { id := 3, username := "eve", phone := 0 },
                           { id := 4, username := "ned", phone := 0 }],
    curUserRes := Except.ok { id := 1, username := "alice", phone := 0 },
    followRes := Except.ok [2], fansRes := Except.ok [3],
    statRes := Except.ok [(2, ⟨2, 0, 5⟩)], pickFinished := false }

/-- Witness for C5 at the concrete environment `envFlags`, instantiated at
the aggregated entry of target 2 (followed by the requester, not a
follower). -/
theorem batchGetUsers_flag_semantics_witness :
    (({ id := 2, username := "bob", isFollow := 1, isFans := 0,
        userStat := some ⟨2, 0, 5⟩ } : UserInfo).isFollow = 1 ↔
      ({ id := 2, username := "bob", isFollow := 1, isFans := 0,
         userStat := some ⟨2, 0, 5⟩ } : UserInfo).id ∈ ([2] : List Nat)) ∧
    (({ id := 2, username := "bob", isFollow := 1, isFans := 0,
        userStat := some ⟨2, 0, 5⟩ } : UserInfo).isFans = 1 ↔
      ({ id := 2, username := "bob", isFollow := 1, isFans := 0,
         userStat := some ⟨2, 0, 5⟩ } : UserInfo).id ∈ ([3] : List Nat)) :=
  batchGetUsers_flag_semantics 1 [2, 3, 4] envFlags
    (([2, 3, 4] : List Nat).map (batchIDMap envFlags)) [2] [3] rfl rfl rfl
    { id := 2, username := "bob", isFollow := 1, isFans := 0,
      userStat := some ⟨2, 0, 5⟩ } (by decide)

/-- Claim C9: `GetUserInfoByID id` is the single-id specialization of
`BatchGetUsers id [id]`: on success it returns exactly the first (and
only) element of the batch result, and on failure the same error. -/
theorem getUserInfoByID_is_single_batch (id : Nat) (env : BatchEnv) :
    (∀ infos, BatchGetUsers id [id] env = BatchOutcome.ok infos →
      infos.length = 1 ∧
        GetUserInfoByID id env = SingleOutcome.ok (infos.getD 0 none)) ∧
    (∀ e, BatchGetUsers id [id] env = BatchOutcome.err e →
      GetUserInfoByID id env = SingleOutcome.err e) := by
  constructor
  · intro infos h
    have he := batchGetUsers_ok_eq id [id] env infos h
    refine ⟨by rw [he]; rfl, ?_⟩
    unfold GetUserInfoByID
    rw [h]
  · intro e h
    unfold GetUserInfoByID
    rw [h]

/-- Concrete single-user environment for the C9 witness. -/
def envSingleOk : BatchEnv :=
  { usersRes := Except.ok [{ id := 5, username := "moss", phone := 0 }],
    curUserRes := Except.ok { id := 5, username := "moss", phone := 0 },
    followRes := Except.ok [], fansRes := Except.ok [],
    statRes := Except.ok [], pickFinished := false }

/-- Concrete failing environment for the C9 witness. -/
def envSingleErr : BatchEnv :=
  { envSingleOk with usersRes := Except.error "boom" }

/-- Witness for C9: both branches applied at concrete environments. -/
theorem getUserInfoByID_is_single_batch_witness :
    GetUserInfoByID 5 envSingleOk =
      SingleOutcome.ok ((([5] : List Nat).map (batchIDMap envSingleOk)).getD 0 none) ∧
    GetUserInfoByID 5 envSingleErr =
      SingleOutcome.err "[user_service] batch get user err: boom" :=
  ⟨((getUserInfoByID_is_single_batch 5 envSingleOk).1
      (([5] : List Nat).map (batchIDMap envSingleOk)) rfl).2,
   (getUserInfoByID_is_single_batch 5 envSingleErr).2
      "[user_service] batch get user err: boom" rfl⟩

/-- Claim C10: a successful `BatchGetUsers` call keeps a nil entry at
every position whose target id has no matching user record, instead of
filtering it out, so the positions of existing users are unaffected. -/
theorem batchGetUsers_keeps_nil_entries (uid : Nat) (ids : List Nat) (env : BatchEnv)
    (infos : List (Option UserInfo))
    (h : BatchGetUsers uid ids env = BatchOutcome.ok infos) :
    infos.length = ids.length ∧
      ∀ (i tid : Nat), ids[i]? = some tid → batchIDMap env tid = none →
        infos[i]? = some none := by
  have he := batchGetUsers_ok_eq uid ids env infos h
  subst he
  refine ⟨List.length_map _ _, fun i tid hi hnone => ?_⟩
  rw [List.getElem?_map (batchIDMap env) ids i, hi]
  simp [hnone]

/-- Concrete environment for the C10 witness: the repository knows user 2
but not user 4. -/
def envMissing : BatchEnv :=
  { usersRes := Except.ok [{ id := 2, username := "bob", phone := 0 }],
    curUserRes := Except.ok { id := 1, username := "alice", phone := 0 },
    followRes := Except.ok [], fansRes := Except.ok [],
    statRes := Except.ok [], pickFinished := false }

/-- Witness for C10: position 1 (target id 4, no record) keeps a nil
entry. -/
theorem batchGetUsers_keeps_nil_entries_witness :
    (([2, 4] : List Nat).map (batchIDMap envMissing)).length =
      ([2, 4] : List Nat).length ∧
    ∀ (i tid : Nat), (([2, 4] : List Nat))[i]? = some tid →
      batchIDMap envMissing tid = none →
      (([2, 4] : List Nat).map (batchIDMap envMissing))[i]? = some none :=
  batchGetUsers_keeps_nil_entries 1 [2, 4] envMissing _ rfl

/-- User table state for the login flow. -/
structure PhoneDB where
  users : List UserBaseModel
  nextID : Nat
deriving DecidableEq, Repr

/-- The claims a signed token carries. -/
structure TokenContext where
  userID : Nat
  username : String
deriving DecidableEq, Repr

/-- Modelled from the spec: `token.Sign` (pkg/token, not under src/) —
`IssueToken(claims) → token`; the token is modelled as the claims it
carries. -/
def tokenSign (c : TokenContext) : Except String TokenContext :=
  Except.ok c

/-- Modelled from the spec: `userRepo.GetUserByPhone` (repository layer,
not under src/).  The spec says PhoneLogin "auto-registers unseen phone
numbers", which requires the repository to answer an unseen phone with
the untouched zero-value record and no error (a NotFound error would be
propagated by the service wrapper and abort the login). -/
def repoGetUserByPhone (db : PhoneDB) (phone : Int) : Except String UserBaseModel :=
  match db.users.find? (fun u => u.phone == phone) with
  | some u => Except.ok u
  | none => Except.ok { id := 0, username := "", phone := 0 }

/-- Modelled from the spec: `userRepo.Create` (repository layer, not
under src/) — inserts the record and returns the newly assigned ID. -/
def repoCreateUser (db : PhoneDB) (u : UserBaseModel) : Nat × PhoneDB :=
  (db.nextID,
   { users := db.users ++ [{ u with id := db.nextID }], nextID := db.nextID + 1 })

/-- `GetUserByPhone` translated from the source; its condition
`err != nil || gorm.IsRecordNotFoundError(err)` is equivalent to
`err != nil`, so any repository error is wrapped and propagated. -/
def GetUserByPhone (db : PhoneDB) (phone : Int) : Except String UserBaseModel :=
  match repoGetUserByPhone db phone with
  | Except.error e => Except.error ("get user info err from db by phone: " ++ e)
  | Except.ok u => Except.ok u

/-- `PhoneLogin` translated from the source.  The source's
`u := model.UserBaseModel{...}` inside the `u.ID == 0` branch declares a
NEW variable that shadows the outer `u`: the created record receives the
new ID, while the token at the end is signed from the OUTER `u`, which
still holds the zero-value record.  The verification code is never
checked, as in the source. -/
def PhoneLogin (db : PhoneDB) (phone : Int) (verifyCode : Int) :
    Except String (TokenContext × PhoneDB) :=
  match GetUserByPhone db phone with
  | Except.error e => Except.error ("[login] get u info err: " ++ e)
  | Except.ok u =>
    if u.id = 0 then
      let uInner : UserBaseModel :=
        { id := 0, username := toString phone, phone := phone }
      let created := repoCreateUser db uInner
      match tokenSign { userID := u.id, username := u.username } with
      | Except.error e => Except.error ("[login] gen token sign err: " ++ e)
      | Except.ok tok => Except.ok (tok, created.snd)
    else
      match tokenSign { userID := u.id, username := u.username } with
      | Except.error e => Except.error ("[login] gen token sign err: " ++ e)
      | Except.ok tok => Except.ok (tok, db)

/-- Claim C4: the claim states that PhoneLogin on an unseen phone creates
the user (username = stringified phone) and returns a token carrying the
NEW user's ID and username, and that a second call creates no duplicate.
The source does create the user and the second call creates no duplicate,
but the returned token carries user ID 0 and an empty username — the
outer shadowed variable — instead of the new user's ID 1 and username
"123". -/
theorem phoneLogin_token_shadowing :
    PhoneLogin { users := [], nextID := 1 } 123 9999 =
      Except.ok ({ userID := 0, username := "" },
        { users := [{ id := 1, username := "123", phone := 123 }], nextID := 2 }) ∧
    PhoneLogin { users := [{ id := 1, username := "123", phone := 123 }],
                 nextID := 2 } 123 9999 =
      Except.ok ({ userID := 1, username := "123" },
        { users := [{ id := 1, username := "123", phone := 123 }], nextID := 2 }) :=
  ⟨rfl, rfl⟩

/-- One follow row as read back by the gorm query in `IsFollowedUser`. -/
structure UserFollowModel where
  id : Nat
  userID : Nat
  followedUID : Nat
  status : Nat
deriving DecidableEq, Repr

/-- The zero-value `UserFollowModel` a gorm `Find` leaves untouched when
no row matches. -/
def emptyUserFollowModel : UserFollowModel :=
  { id := 0, userID := 0, followedUID := 0, status := 0 }

/-- `IsFollowedUser` 是否关注过某用户, translated from the source and
parameterized by the outcome of the underlying gorm query (an external
collaborator): a query error is logged and collapsed to `false`; a read
row answers `ID > 0 && Status == FollowStatusNormal`. -/
def IsFollowedUser (queryResult : Except String UserFollowModel) : Bool :=
  match queryResult with
  | Except.error _ => false
  | Except.ok m => decide (0 < m.id) && decide (m.status = FollowStatusNormal)

/-- Claim C7: `IsFollowedUser` is total into Bool — it can return no
error — and both a failed query and a not-found query (which gorm reports
either as an error or as the untouched zero-value record) yield `false`,
identically. -/
theorem isFollowedUser_swallows_errors :
    (∀ e : String, IsFollowedUser (Except.error e) = false) ∧
    IsFollowedUser (Except.ok emptyUserFollowModel) = false :=
  ⟨fun _ => rfl, rfl⟩

end SnakeUser
